import Mathlib

/-!
# Verification of the senior-care REST backend

Shallow embedding of the data model (`senior_care/models.py`), the
serializer layer (`senior_care/serializers.py`) and the view-level
operations (`senior_care/views.py`) of the senior-care admin backend,
together with proofs of the specification's testable properties.

Conventions of the embedding:
* Database rows are Lean structures keeping the source's field names;
  only the fields the verified operations read or write are carried.
* `datetime` values are modelled as `Int` (seconds on an abstract
  timeline); `timedelta` values as `Int` seconds; nullable columns as
  `Option`.  Each call of `timezone.now()` in the source becomes one
  explicit clock parameter, in source order.
* Querysets are lists of rows; `filter(f=v)` is `List.filter`;
  `queryset.update(...)` maps the update over the user's rows inside
  the whole table.
* `DecimalField` arithmetic done in Python floats on exactly
  representable inputs is modelled in `ℚ`; an integer column
  (`PositiveIntegerField`) persists the Python `int()` truncation of
  whatever value was assigned in memory, modelled by `python_int`.
-/

/-- `User.USER_TYPE_CHOICES` from `models.py`. -/
inductive UserType where
  | senior
  | caretaker
  | senior_admin
  | volunteer
  | ngo_admin
deriving DecidableEq, Repr

/-- The fields of `User` that the scoped queries consult. -/
structure UserRow where
  id : Nat
  user_type : UserType
deriving DecidableEq, Repr

/-- `Appointment.status` choices from `models.py`. -/
inductive AppointmentStatus where
  | scheduled
  | confirmed
  | completed
  | cancelled
  | rescheduled
deriving DecidableEq, Repr

/-- `Appointment` row: `senior` is a mandatory FK, `caretaker` is a
nullable FK (`null=True` in `models.py`). -/
structure Appointment where
  id : Nat
  senior : Nat
  caretaker : Option Nat
  status : AppointmentStatus
deriving DecidableEq, Repr

/-- `Medication` row.  Its only user reference is `senior`; the model
has no caretaker or volunteer column. -/
structure Medication where
  id : Nat
  senior : Nat
  is_active : Bool
deriving DecidableEq, Repr

/-- `VolunteerTask.status` choices from `models.py`. -/
inductive TaskStatus where
  | assigned
  | accepted
  | in_progress
  | completed
  | cancelled
deriving DecidableEq, Repr

/-- `VolunteerTask` row with the fields read and written by the task
actions. -/
structure VolunteerTask where
  id : Nat
  senior : Nat
  volunteer : Nat
  status : TaskStatus
  actual_start_time : Option Int
  actual_end_time : Option Int
  hours_logged : ℚ
  completion_notes : String
deriving DecidableEq, Repr

/-- `HealthRecord` row.  Its only subject reference is `senior`. -/
structure HealthRecord where
  id : Nat
  senior : Nat
deriving DecidableEq, Repr

/-- `VolunteerProfile` row with the statistics counters bumped on task
completion.  `total_hours` is a `PositiveIntegerField`, i.e. an
integer column: the persisted value is always an integer (the
nonnegativity is a database check, not a clamp, and is not modelled
here). -/
structure VolunteerProfile where
  user : Nat
  total_hours : Int
  tasks_completed : Nat
deriving DecidableEq, Repr

/-- `EmergencyAlert` row; `alert_time` is `auto_now_add` hence always
set, the resolution columns are nullable. -/
structure EmergencyAlert where
  id : Nat
  senior : Nat
  alert_time : Int
  is_resolved : Bool
  resolved_at : Option Int
  resolved_by : Option Nat
  response_time : Option Int
  resolution_notes : String
deriving DecidableEq, Repr

/-- `Event` row with the capacity counters. -/
structure Event where
  id : Nat
  max_participants : Nat
  current_registrations : Nat
deriving DecidableEq, Repr

/-- `EventRegistration` row (`unique_together = [event, user]` is
enforced by the register action's existence check). -/
structure EventRegistration where
  event : Nat
  user : Nat
deriving DecidableEq, Repr

/-- `Notification` row. -/
structure Notification where
  id : Nat
  user : Nat
  is_read : Bool
  read_at : Option Int
deriving DecidableEq, Repr

/-- A fresh `Notification` created with the model's column defaults
(`is_read = False`, `read_at = NULL`). -/
def Notification.mkDefault (id userId : Nat) : Notification :=
  { id := id, user := userId, is_read := false, read_at := none }

/- ## Visibility scoping (`get_queryset` overrides in `views.py`) -/

/-- `AppointmentViewSet.get_queryset`: seniors see their own rows,
caretakers the rows they are attached to, everyone else the full
queryset. -/
def appointment_get_queryset (user : UserRow) (rows : List Appointment) :
    List Appointment :=
  if user.user_type = UserType.senior then
    rows.filter (fun a => a.senior = user.id)
  else if user.user_type = UserType.caretaker then
    rows.filter (fun a => a.caretaker = some user.id)
  else
    rows

/-- `MedicationViewSet.get_queryset`: only the senior branch exists;
every non-senior caller gets the unfiltered queryset. -/
def medication_get_queryset (user : UserRow) (rows : List Medication) :
    List Medication :=
  if user.user_type = UserType.senior then
    rows.filter (fun m => m.senior = user.id)
  else
    rows

/-- `VolunteerTaskViewSet.get_queryset`: volunteers see their assigned
tasks, seniors the tasks about them, everyone else all tasks. -/
def volunteer_task_get_queryset (user : UserRow) (rows : List VolunteerTask) :
    List VolunteerTask :=
  if user.user_type = UserType.volunteer then
    rows.filter (fun t => t.volunteer = user.id)
  else if user.user_type = UserType.senior then
    rows.filter (fun t => t.senior = user.id)
  else
    rows

/-- `HealthRecordViewSet.get_queryset`: only the senior branch exists;
every non-senior caller gets the unfiltered queryset. -/
def health_record_get_queryset (user : UserRow) (rows : List HealthRecord) :
    List HealthRecord :=
  if user.user_type = UserType.senior then
    rows.filter (fun r => r.senior = user.id)
  else
    rows

/- ## Appointment actions -/

/-- `AppointmentViewSet.confirm`: sets `status = 'confirmed'` with no
check on the previous status. -/
def appointment_confirm (a : Appointment) : Appointment :=
  { a with status := AppointmentStatus.confirmed }

/- ## Event registration (`EventViewSet.register`) -/

/-- Outcome of `EventViewSet.register`, one constructor per `Response`
branch of the source. -/
inductive RegisterOutcome where
  | conflict
  | capacity_exceeded
  | registered
deriving DecidableEq, Repr

/-- `EventViewSet.register` on the selected event, given the
registration table: duplicate check, then capacity check, then create
the row and bump the counter. -/
def event_register (event : Event) (regs : List EventRegistration)
    (userId : Nat) : RegisterOutcome × Event × List EventRegistration :=
  if regs.any (fun r => r.event = event.id && r.user = userId) then
    (RegisterOutcome.conflict, event, regs)
  else if event.max_participants ≤ event.current_registrations then
    (RegisterOutcome.capacity_exceeded, event, regs)
  else
    (RegisterOutcome.registered,
     { event with current_registrations := event.current_registrations + 1 },
     { event := event.id, user := userId } :: regs)

/-- Sequential composition of register requests against one event. -/
def event_register_many (s : Event × List EventRegistration)
    (users : List Nat) : Event × List EventRegistration :=
  users.foldl (fun s u => (event_register s.1 s.2 u).2) s

/- ## Event serialization (`EventSerializer` in `serializers.py`) -/

/-- `EventSerializer.spaces_available`: declared as
`IntegerField(source='max_participants', read_only=True)`, so it
reports the raw capacity. -/
def spaces_available (e : Event) : Nat :=
  e.max_participants

/- ## Volunteer task completion (`VolunteerTaskViewSet.complete`) -/

/-- `VolunteerTaskViewSet.complete`, task half: status to completed,
stamp `actual_end_time` with the clock, and when both endpoints are
set compute `hours_logged = duration.total_seconds() / 3600`. -/
def volunteer_task_complete_row (task : VolunteerTask) (now : Int)
    (notes : String) : VolunteerTask :=
  let task := { task with
    status := TaskStatus.completed
    actual_end_time := some now }
  let task :=
    match task.actual_start_time, task.actual_end_time with
    | some s, some e =>
        { task with hours_logged := ((e - s : Int) : ℚ) / 3600 }
    | _, _ => task
  { task with completion_notes := notes }

/-- Python `int()` truncation toward zero of a rational value: what
Django's `IntegerField.get_prep_value` applies when a fractional
in-memory value is saved into an integer column. -/
def python_int (q : ℚ) : Int :=
  if 0 ≤ q then ⌊q⌋ else ⌈q⌉

/-- `VolunteerTaskViewSet.complete`, stats half: when the volunteer's
profile row exists, `volunteer.total_hours += task.hours_logged` adds
the fractional hours in memory, but `volunteer.save()` persists the
`int()` truncation of that sum into the `PositiveIntegerField`
column; `tasks_completed` is bumped by one.  The `DoesNotExist`
branch is a no-op. -/
def volunteer_stats_update (task : VolunteerTask)
    (profile : Option VolunteerProfile) : Option VolunteerProfile :=
  match profile with
  | some v => some { v with
      total_hours := python_int ((v.total_hours : ℚ) + task.hours_logged)
      tasks_completed := v.tasks_completed + 1 }
  | none => none

/-- The whole `complete` action: task write followed by the stats
write. `profile` is the `VolunteerProfile` row with
`user = task.volunteer`, if any. -/
def volunteer_task_complete (task : VolunteerTask)
    (profile : Option VolunteerProfile) (now : Int) (notes : String) :
    VolunteerTask × Option VolunteerProfile :=
  let task := volunteer_task_complete_row task now notes
  (task, volunteer_stats_update task profile)

/- ## Emergency alert resolution (`EmergencyAlertViewSet.resolve`) -/

/-- `EmergencyAlertViewSet.resolve`.  The source reads the clock twice:
`t1` is the `timezone.now()` stored into `resolved_at`, `t2` the later
`timezone.now()` used for `response_time`; `alert_time` is non-null so
its truthiness guard always passes. -/
def emergency_alert_resolve (alert : EmergencyAlert) (userId : Nat)
    (notes : String) (t1 t2 : Int) : EmergencyAlert :=
  { alert with
    is_resolved := true
    resolved_at := some t1
    resolved_by := some userId
    resolution_notes := notes
    response_time := some (t2 - alert.alert_time) }

/- ## Notification operations (`NotificationViewSet`) -/

/-- `NotificationViewSet.get_queryset`: the caller's own rows. -/
def notification_get_queryset (userId : Nat) (rows : List Notification) :
    List Notification :=
  rows.filter (fun n => n.user = userId)

/-- `NotificationViewSet.mark_read` on one row. -/
def notification_mark_read (n : Notification) (now : Int) : Notification :=
  { n with is_read := true, read_at := some now }

/-- `NotificationViewSet.mark_all_read`:
`get_queryset().update(is_read=True, read_at=now)`, i.e. every row of
the calling user is updated in place and every other row of the table
is untouched. -/
def notification_mark_all_read (userId : Nat) (rows : List Notification)
    (now : Int) : List Notification :=
  rows.map (fun n =>
    if n.user = userId then
      { n with is_read := true, read_at := some now }
    else n)

/-- Writable payload of the generic `NotificationViewSet` update
endpoint.  `NotificationSerializer` uses `fields = '__all__'`, so
`is_read` and `read_at` are both independently writable; `none` means
the field is absent from the PATCH body. -/
structure NotificationUpdatePayload where
  is_read : Option Bool
  read_at : Option (Option Int)
deriving DecidableEq, Repr

/-- The generic (partial) update endpoint on a notification row:
each supplied field overwrites the column, absent fields keep their
value. -/
def notification_generic_update (n : Notification)
    (p : NotificationUpdatePayload) : Notification :=
  { n with
    is_read := p.is_read.getD n.is_read
    read_at := p.read_at.getD n.read_at }

/-- The spec's notification invariant: `read_at` set iff `is_read`. -/
def read_at_iff_is_read (n : Notification) : Prop :=
  n.read_at.isSome ↔ n.is_read = true

instance (n : Notification) : Decidable (read_at_iff_is_read n) := by
  unfold read_at_iff_is_read
  infer_instance

/- ## User registration (`RegisterSerializer` / `RegisterView`) -/

/-- The write-only fields of `RegisterSerializer` that its object-level
`validate` consults. -/
structure RegisterInput where
  username : String
  password : String
  password2 : String
deriving DecidableEq, Repr

/-- A created user row of the registration endpoint. -/
structure CreatedUser where
  username : String
deriving DecidableEq, Repr

/-- Outcome of `RegisterView.create`. -/
inductive RegisterViewOutcome where
  | validation_error
  | created (u : CreatedUser)
deriving DecidableEq, Repr

/-- `RegisterSerializer.validate`: object-level check that raises a
`ValidationError` when the two password fields differ. -/
def register_serializer_validate (attrs : RegisterInput) :
    Except Unit RegisterInput :=
  if attrs.password ≠ attrs.password2 then Except.error ()
  else Except.ok attrs

/-- `RegisterView.create` against the user table:
`is_valid(raise_exception=True)` aborts before `serializer.save()`, so
a validation failure leaves the table untouched; on success
`create_user` inserts exactly one row. -/
def register_view_create (users : List CreatedUser) (input : RegisterInput) :
    RegisterViewOutcome × List CreatedUser :=
  match register_serializer_validate input with
  | Except.error _ => (RegisterViewOutcome.validation_error, users)
  | Except.ok attrs =>
      let u : CreatedUser := { username := attrs.username }
      (RegisterViewOutcome.created u, u :: users)

/- ## Helper lemmas -/

/-- One register request preserves the capacity bound, whatever its
outcome. -/
theorem register_capacity_step (event : Event) (regs : List EventRegistration)
    (userId : Nat)
    (h : event.current_registrations ≤ event.max_participants) :
    (event_register event regs userId).2.1.current_registrations ≤
      (event_register event regs userId).2.1.max_participants := by
  unfold event_register
  split
  · simpa using h
  · split
    · simpa using h
    · next hcap =>
        show event.current_registrations + 1 ≤ event.max_participants
        omega

/-- Any sequence of sequential register requests preserves the
capacity bound. -/
theorem register_capacity_many (users : List Nat) :
    ∀ event regs, event.current_registrations ≤ event.max_participants →
      (event_register_many (event, regs) users).1.current_registrations ≤
        (event_register_many (event, regs) users).1.max_participants := by
  induction users with
  | nil =>
      intro e r h
      simpa [event_register_many] using h
  | cons u us ih =>
      intro e r h
      have hstep := register_capacity_step e r u h
      have : event_register_many (e, r) (u :: us) =
          event_register_many ((event_register e r u).2.1,
            (event_register e r u).2.2) us := by
        simp [event_register_many]
      rw [this]
      exact ih _ _ hstep

/- ## C7 -/

/-- C7: the claim that `confirm` acts only from status scheduled or
confirmed is false: on a cancelled appointment the action still moves
the status to confirmed. -/
theorem c7_confirm_counterexample :
    (appointment_confirm
      { id := 1, senior := 2, caretaker := none,
        status := AppointmentStatus.cancelled }).status =
      AppointmentStatus.confirmed ∧
    AppointmentStatus.cancelled ≠ AppointmentStatus.scheduled ∧
    AppointmentStatus.cancelled ≠ AppointmentStatus.confirmed := by
  refine ⟨rfl, by decide, by decide⟩

/-- C7 (amended): `AppointmentViewSet.confirm` unconditionally sets the
status to confirmed, from any prior status whatsoever; in particular the
transitions scheduled→confirmed and confirmed→confirmed hold, but no
precondition on the prior status is enforced. -/
theorem c7_confirm_amended (a : Appointment) :
    (appointment_confirm a).status = AppointmentStatus.confirmed := rfl

/- ## C8 -/

/-- C8: when the submitted password and password2 differ, registration
returns a validation error and the user table is returned unchanged: no
user row is created. -/
theorem c8_register_mismatch (users : List CreatedUser)
    (input : RegisterInput) (h : input.password ≠ input.password2) :
    register_view_create users input =
      (RegisterViewOutcome.validation_error, users) := by
  simp [register_view_create, register_serializer_validate, h]

/-- C8 witness: a concrete mismatched request against a one-row table
fails validation and leaves the table as it was. -/
theorem c8_register_mismatch_witness :
    register_view_create [{ username := "u0" }]
      { username := "alice", password := "pw1", password2 := "pw2" } =
      (RegisterViewOutcome.validation_error, [{ username := "u0" }]) :=
  c8_register_mismatch [{ username := "u0" }]
    { username := "alice", password := "pw1", password2 := "pw2" }
    (by decide)

/- ## C10 -/

/-- C10: the serialized `spaces_available` field equals
`max_participants` regardless of `current_registrations`, and whenever
`current_registrations > 0` it differs from the remaining capacity
`max_participants - current_registrations`. -/
theorem c10_spaces_available (e : Event) :
    spaces_available e = e.max_participants ∧
    (0 < e.current_registrations →
      (spaces_available e : Int) ≠
        (e.max_participants : Int) - (e.current_registrations : Int)) := by
  refine ⟨rfl, fun h => ?_⟩
  simp only [spaces_available]
  omega

/-- C10 witness: an event with capacity 10 and 3 registrations
serializes `spaces_available` as 10, not as the remaining 7. -/
theorem c10_spaces_available_witness :
    spaces_available
      { id := 1, max_participants := 10, current_registrations := 3 } = 10 ∧
    (spaces_available
      { id := 1, max_participants := 10, current_registrations := 3 } :
        Int) ≠ 10 - 3 := by
  have h := c10_spaces_available
    { id := 1, max_participants := 10, current_registrations := 3 }
  exact ⟨h.1, by simpa using h.2 (by decide)⟩

/- ## C2 -/

/-- C2: register fails with the conflict response when a registration
for (event, user) already exists, fails with the capacity response when
`current_registrations >= max_participants`, and otherwise creates
exactly one registration row for (event, user) and increments
`current_registrations` by exactly one; moreover, after a successful
registration a second register by the same user on the same event
yields the conflict response. -/
theorem c2_event_register (event : Event) (regs : List EventRegistration)
    (userId : Nat) :
    ((∃ r ∈ regs, r.event = event.id ∧ r.user = userId) →
      event_register event regs userId =
        (RegisterOutcome.conflict, event, regs)) ∧
    ((¬ ∃ r ∈ regs, r.event = event.id ∧ r.user = userId) →
      event.max_participants ≤ event.current_registrations →
      event_register event regs userId =
        (RegisterOutcome.capacity_exceeded, event, regs)) ∧
    ((¬ ∃ r ∈ regs, r.event = event.id ∧ r.user = userId) →
      event.current_registrations < event.max_participants →
      event_register event regs userId =
        (RegisterOutcome.registered,
         { event with
             current_registrations := event.current_registrations + 1 },
         { event := event.id, user := userId } :: regs)) ∧
    ((event_register event regs userId).1 = RegisterOutcome.registered →
      (event_register (event_register event regs userId).2.1
        (event_register event regs userId).2.2 userId).1 =
        RegisterOutcome.conflict) := by
  refine ⟨?_, ?_, ?_, ?_⟩
  · intro h
    have hc : regs.any (fun r => r.event = event.id && r.user = userId) =
        true := by
      simpa [List.any_eq_true, Bool.and_eq_true, decide_eq_true_eq] using h
    simp [event_register, hc]
  · intro h hcap
    have hc : ¬ (regs.any (fun r => r.event = event.id && r.user = userId) =
        true) := by
      simpa [List.any_eq_true, Bool.and_eq_true, decide_eq_true_eq] using h
    simp [event_register, hc, hcap]
  · intro h hlt
    have hc : ¬ (regs.any (fun r => r.event = event.id && r.user = userId) =
        true) := by
      simpa [List.any_eq_true, Bool.and_eq_true, decide_eq_true_eq] using h
    have hcap : ¬ (event.max_participants ≤ event.current_registrations) :=
      not_le.mpr hlt
    simp [event_register, hc, hcap]
  · intro hreg
    by_cases hc : regs.any (fun r => r.event = event.id && r.user = userId) =
        true
    · simp [event_register, hc] at hreg
    · by_cases hcap :
          event.max_participants ≤ event.current_registrations
      · simp [event_register, hc, hcap] at hreg
      · simp [event_register, hc, hcap, List.any_cons]

/-- C2 witness: against the empty registration table, a register on an
event with capacity 2 succeeds and produces exactly the registration
row and the incremented counter; on a full event it yields the capacity
response; with an existing row it yields the conflict response; and
registering again immediately after the successful attempt yields the
conflict response. -/
theorem c2_event_register_witness :
    event_register
      { id := 1, max_participants := 2, current_registrations := 0 } [] 7 =
      (RegisterOutcome.registered,
       { id := 1, max_participants := 2, current_registrations := 1 },
       [{ event := 1, user := 7 }]) ∧
    event_register
      { id := 1, max_participants := 2, current_registrations := 2 } [] 7 =
      (RegisterOutcome.capacity_exceeded,
       { id := 1, max_participants := 2, current_registrations := 2 }, []) ∧
    event_register
      { id := 1, max_participants := 2, current_registrations := 1 }
      [{ event := 1, user := 7 }] 7 =
      (RegisterOutcome.conflict,
       { id := 1, max_participants := 2, current_registrations := 1 },
       [{ event := 1, user := 7 }]) ∧
    (event_register
      (event_register
        { id := 1, max_participants := 2, current_registrations := 0 }
        [] 7).2.1
      (event_register
        { id := 1, max_participants := 2, current_registrations := 0 }
        [] 7).2.2 7).1 = RegisterOutcome.conflict := by
  refine ⟨?_, ?_, ?_, ?_⟩
  · exact (c2_event_register
      { id := 1, max_participants := 2, current_registrations := 0 }
      [] 7).2.2.1 (by simp) (by decide)
  · exact (c2_event_register
      { id := 1, max_participants := 2, current_registrations := 2 }
      [] 7).2.1 (by simp) (by decide)
  · exact (c2_event_register
      { id := 1, max_participants := 2, current_registrations := 1 }
      [{ event := 1, user := 7 }] 7).1
      ⟨{ event := 1, user := 7 }, by simp, by decide⟩
  · exact (c2_event_register
      { id := 1, max_participants := 2, current_registrations := 0 }
      [] 7).2.2.2 (by decide)

/- ## C3 -/

/-- C3: the capacity bound `current_registrations ≤ max_participants`
is an invariant of the register action: one register preserves it,
whatever the outcome, and hence any sequence of sequential register
requests starting from a state satisfying it never drives the counter
past the capacity. -/
theorem c3_capacity_invariant (event : Event) (regs : List EventRegistration)
    (userId : Nat) (users : List Nat) :
    (event.current_registrations ≤ event.max_participants →
      (event_register event regs userId).2.1.current_registrations ≤
        (event_register event regs userId).2.1.max_participants) ∧
    (event.current_registrations ≤ event.max_participants →
      (event_register_many (event, regs) users).1.current_registrations ≤
        (event_register_many (event, regs) users).1.max_participants) :=
  ⟨register_capacity_step event regs userId,
   register_capacity_many users event regs⟩

/-- C3 witness: from an event with 1 of 2 places taken, three
back-to-back register requests leave the counter within capacity. -/
theorem c3_capacity_invariant_witness :
    (event_register_many
      ({ id := 1, max_participants := 2, current_registrations := 1 }, [])
      [4, 5, 6]).1.current_registrations ≤
      (event_register_many
        ({ id := 1, max_participants := 2, current_registrations := 1 }, [])
        [4, 5, 6]).1.max_participants :=
  (c3_capacity_invariant
    { id := 1, max_participants := 2, current_registrations := 1 }
    [] 4 [4, 5, 6]).2 (by decide)

/- ## C4 -/

/-- C4: the claim that completing a task increments the volunteer's
`total_hours` by exactly `hours_logged` is false: `total_hours` is a
`PositiveIntegerField`, so `volunteer.save()` persists the `int()`
truncation of the in-memory sum.  Completing a task started at time 0
at clock 5400 logs 1.50 hours, yet the profile counter goes from 10
to 11 — a persisted increment of 1, not 1.50. -/
theorem c4_complete_counterexample :
    (volunteer_task_complete
      { id := 1, senior := 2, volunteer := 3,
        status := TaskStatus.in_progress, actual_start_time := some 0,
        actual_end_time := none, hours_logged := 0, completion_notes := "" }
      (some { user := 3, total_hours := 10, tasks_completed := 4 })
      5400 "done").1.hours_logged = (3 : ℚ) / 2 ∧
    (volunteer_task_complete
      { id := 1, senior := 2, volunteer := 3,
        status := TaskStatus.in_progress, actual_start_time := some 0,
        actual_end_time := none, hours_logged := 0, completion_notes := "" }
      (some { user := 3, total_hours := 10, tasks_completed := 4 })
      5400 "done").2 =
      some { user := 3, total_hours := 11, tasks_completed := 5 } ∧
    ((11 : ℚ) - 10) ≠ (3 : ℚ) / 2 := by
  refine ⟨?_, ?_, by norm_num⟩
  · simp [volunteer_task_complete, volunteer_task_complete_row]
    norm_num
  · have hq : python_int (((10 : Int) : ℚ) + ((5400 - 0 : Int) : ℚ) / 3600) =
        11 := by
      rw [python_int, if_pos (by norm_num)]
      rw [Int.floor_eq_iff]
      norm_num
    simp [volunteer_task_complete, volunteer_task_complete_row,
      volunteer_stats_update]
    rw [show ((5400 : ℚ) / 3600) = ((5400 - 0 : Int) : ℚ) / 3600 by norm_num]
    rw [show (10 : ℚ) = ((10 : Int) : ℚ) by norm_num]
    rw [hq]

/-- C4 (amended): for a task whose `actual_start_time` is set,
`complete` sets the status to completed, stamps `actual_end_time` with
the clock, and sets `hours_logged` to the elapsed seconds divided by
3600; with start `s` and clock `s + 5400` this gives 1.50 hours; and
when the volunteer's profile row exists, `tasks_completed` grows by
one and the persisted `total_hours` becomes the `int()` truncation of
the previous value plus the task's logged hours (the increment equals
`hours_logged` only up to this truncation to the integer column). -/
theorem c4_volunteer_task_complete (task : VolunteerTask)
    (profile : Option VolunteerProfile) (p : VolunteerProfile)
    (now s : Int) (notes : String) :
    (task.actual_start_time = some s →
      (volunteer_task_complete task profile now notes).1.status =
        TaskStatus.completed ∧
      (volunteer_task_complete task profile now notes).1.actual_end_time =
        some now ∧
      (volunteer_task_complete task profile now notes).1.hours_logged =
        ((now - s : Int) : ℚ) / 3600) ∧
    (task.actual_start_time = some s → now = s + 5400 →
      (volunteer_task_complete task profile now notes).1.hours_logged =
        (3 : ℚ) / 2) ∧
    (profile = some p →
      (volunteer_task_complete task profile now notes).2 =
        some { p with
          total_hours := python_int ((p.total_hours : ℚ) +
            (volunteer_task_complete task profile now notes).1.hours_logged)
          tasks_completed := p.tasks_completed + 1 }) := by
  refine ⟨?_, ?_, ?_⟩
  · intro hstart
    refine ⟨?_, ?_, ?_⟩ <;>
      simp [volunteer_task_complete, volunteer_task_complete_row, hstart]
  · intro hstart hnow
    have h : (volunteer_task_complete task profile now notes).1.hours_logged =
        ((now - s : Int) : ℚ) / 3600 := by
      simp [volunteer_task_complete, volunteer_task_complete_row, hstart]
    rw [h, hnow]
    push_cast
    ring_nf
  · intro hp
    simp [volunteer_task_complete, volunteer_stats_update, hp]

/-- C4 witness: completing a task started at time 0 at time 5400 with
an existing profile at 10 hours logs 1.50 hours, bumps
`tasks_completed` to 5, and persists `total_hours = 11`, the
truncation of 10 + 1.50. -/
theorem c4_volunteer_task_complete_witness :
    (volunteer_task_complete
      { id := 1, senior := 2, volunteer := 3,
        status := TaskStatus.in_progress, actual_start_time := some 0,
        actual_end_time := none, hours_logged := 0, completion_notes := "" }
      (some { user := 3, total_hours := 10, tasks_completed := 4 })
      5400 "done").1.hours_logged = (3 : ℚ) / 2 ∧
    (volunteer_task_complete
      { id := 1, senior := 2, volunteer := 3,
        status := TaskStatus.in_progress, actual_start_time := some 0,
        actual_end_time := none, hours_logged := 0, completion_notes := "" }
      (some { user := 3, total_hours := 10, tasks_completed := 4 })
      5400 "done").2 =
      some { user := 3, total_hours := 11, tasks_completed := 5 } := by
  have h := c4_volunteer_task_complete
    { id := 1, senior := 2, volunteer := 3,
      status := TaskStatus.in_progress, actual_start_time := some 0,
      actual_end_time := none, hours_logged := 0, completion_notes := "" }
    (some { user := 3, total_hours := 10, tasks_completed := 4 })
    { user := 3, total_hours := 10, tasks_completed := 4 }
    5400 0 "done"
  have hhours := h.2.1 rfl (by norm_num)
  refine ⟨hhours, ?_⟩
  rw [h.2.2 rfl, hhours]
  have hq : python_int (((10 : Int) : ℚ) + (3 : ℚ) / 2) = 11 := by
    rw [python_int, if_pos (by norm_num)]
    rw [Int.floor_eq_iff]
    norm_num
  rw [show ((({ user := 3, total_hours := 10, tasks_completed := 4 } :
      VolunteerProfile).total_hours : ℚ)) = ((10 : Int) : ℚ) from rfl]
  rw [hq]

/- ## C5 -/

/-- C5: the claim that `resolve` sets `response_time` exactly to
`resolved_at − alert_time` is false: the source reads the clock a
second time for the response-time computation, so with `alert_time = 0`,
first clock read 100 and second clock read 101 the stored
`response_time` is 101 seconds while `resolved_at − alert_time` is
100 seconds. -/
theorem c5_resolve_counterexample :
    (emergency_alert_resolve
      { id := 1, senior := 2, alert_time := 0, is_resolved := false,
        resolved_at := none, resolved_by := none, response_time := none,
        resolution_notes := "" } 9 "ok" 100 101).resolved_at = some 100 ∧
    (emergency_alert_resolve
      { id := 1, senior := 2, alert_time := 0, is_resolved := false,
        resolved_at := none, resolved_by := none, response_time := none,
        resolution_notes := "" } 9 "ok" 100 101).response_time = some 101 ∧
    (101 : Int) ≠ 100 - 0 := by
  refine ⟨rfl, rfl, by decide⟩

/-- C5 (amended): `resolve` sets `is_resolved`, stamps `resolved_at`
with the first clock read and `resolved_by` with the caller, and sets
`response_time` to the second clock read minus `alert_time`; this
equals `resolved_at − alert_time` exactly when the two clock reads
coincide. -/
theorem c5_resolve_amended (alert : EmergencyAlert) (userId : Nat)
    (notes : String) (t1 t2 : Int) :
    (emergency_alert_resolve alert userId notes t1 t2).is_resolved = true ∧
    (emergency_alert_resolve alert userId notes t1 t2).resolved_at =
      some t1 ∧
    (emergency_alert_resolve alert userId notes t1 t2).resolved_by =
      some userId ∧
    (emergency_alert_resolve alert userId notes t1 t2).response_time =
      some (t2 - alert.alert_time) ∧
    (t2 = t1 →
      (emergency_alert_resolve alert userId notes t1 t2).response_time =
        some (t1 - alert.alert_time)) := by
  refine ⟨rfl, rfl, rfl, rfl, fun h => ?_⟩
  simp [emergency_alert_resolve, h]

/-- C5 witness: resolving with both clock reads at 100 on an alert
raised at time 40 stamps resolution data and a 60-second response
time. -/
theorem c5_resolve_amended_witness :
    (emergency_alert_resolve
      { id := 1, senior := 2, alert_time := 40, is_resolved := false,
        resolved_at := none, resolved_by := none, response_time := none,
        resolution_notes := "" } 9 "ok" 100 100).is_resolved = true ∧
    (emergency_alert_resolve
      { id := 1, senior := 2, alert_time := 40, is_resolved := false,
        resolved_at := none, resolved_by := none, response_time := none,
        resolution_notes := "" } 9 "ok" 100 100).response_time =
      some (100 - 40) := by
  have h := c5_resolve_amended
    { id := 1, senior := 2, alert_time := 40, is_resolved := false,
      resolved_at := none, resolved_by := none, response_time := none,
      resolution_notes := "" } 9 "ok" 100 100
  exact ⟨h.1, h.2.2.2.2 rfl⟩

/- ## C6 -/

/-- C6: `mark_all_read` turns every previously unread notification of
the calling user into is_read = true with read_at stamped to the
clock, and leaves every notification row of any other user exactly as
it was. -/
theorem c6_mark_all_read (userId : Nat) (rows : List Notification)
    (now : Int) (i : Nat) (n : Notification)
    (hi : rows[i]? = some n) :
    (n.user = userId → n.is_read = false →
      (notification_mark_all_read userId rows now)[i]? =
        some { n with is_read := true, read_at := some now }) ∧
    (n.user ≠ userId →
      (notification_mark_all_read userId rows now)[i]? = some n) := by
  constructor
  · intro hu _
    simp [notification_mark_all_read, List.getElem?_map, hi, hu]
  · intro hu
    simp [notification_mark_all_read, List.getElem?_map, hi, hu]

/-- C6 witness: for user 1 with clock 50, the unread row of user 1 is
stamped read and the row of user 2 is untouched. -/
theorem c6_mark_all_read_witness :
    (notification_mark_all_read 1
      [{ id := 10, user := 1, is_read := false, read_at := none },
       { id := 11, user := 2, is_read := false, read_at := none }]
      50)[0]? =
      some { id := 10, user := 1, is_read := true, read_at := some 50 } ∧
    (notification_mark_all_read 1
      [{ id := 10, user := 1, is_read := false, read_at := none },
       { id := 11, user := 2, is_read := false, read_at := none }]
      50)[1]? =
      some { id := 11, user := 2, is_read := false, read_at := none } := by
  constructor
  · exact (c6_mark_all_read 1
      [{ id := 10, user := 1, is_read := false, read_at := none },
       { id := 11, user := 2, is_read := false, read_at := none }]
      50 0 { id := 10, user := 1, is_read := false, read_at := none }
      rfl).1 rfl rfl
  · exact (c6_mark_all_read 1
      [{ id := 10, user := 1, is_read := false, read_at := none },
       { id := 11, user := 2, is_read := false, read_at := none }]
      50 1 { id := 11, user := 2, is_read := false, read_at := none }
      rfl).2 (by decide)

/- ## C9 -/

/-- C9: the claim that the invariant `read_at` set iff `is_read` is
preserved by every exposed notification operation is false: the
generic update endpoint exposes both columns independently
(`NotificationSerializer` has `fields = '__all__'`), so a partial
update sending only `is_read = true` on a fresh notification leaves
`read_at` null while `is_read` becomes true. -/
theorem c9_invariant_counterexample :
    ¬ read_at_iff_is_read
      (notification_generic_update (Notification.mkDefault 1 2)
        { is_read := some true, read_at := none }) := by
  decide

/-- C9 (amended): the invariant `read_at` set iff `is_read` holds of a
notification created with the model defaults and is preserved by
`mark_read` and by `mark_all_read`; the generic update endpoint,
however, writes `is_read` and `read_at` independently and can break
it. -/
theorem c9_invariant_amended (id userId uid : Nat) (n : Notification)
    (rows : List Notification) (now : Int) (m : Notification) :
    read_at_iff_is_read (Notification.mkDefault id userId) ∧
    read_at_iff_is_read (notification_mark_read n now) ∧
    ((∀ k ∈ rows, read_at_iff_is_read k) →
      m ∈ notification_mark_all_read uid rows now →
      read_at_iff_is_read m) := by
  refine ⟨by simp [read_at_iff_is_read, Notification.mkDefault],
          by simp [read_at_iff_is_read, notification_mark_read], ?_⟩
  intro hall hm
  rcases List.mem_map.mp hm with ⟨k, hk, hkm⟩
  by_cases hu : k.user = uid
  · rw [← hkm]
    simp [read_at_iff_is_read, hu]
  · rw [← hkm]
    simpa [hu] using hall k hk

/-- C9 witness: the default row satisfies the invariant, marking a
fresh row read preserves it, and every row of a mark-all-read over an
invariant-satisfying table still satisfies it. -/
theorem c9_invariant_amended_witness :
    read_at_iff_is_read (Notification.mkDefault 1 2) ∧
    read_at_iff_is_read
      (notification_mark_read (Notification.mkDefault 1 2) 50) ∧
    read_at_iff_is_read
      { id := 3, user := 4, is_read := true, read_at := some 50 } := by
  have h := c9_invariant_amended 1 2 4 (Notification.mkDefault 1 2)
    [{ id := 3, user := 4, is_read := false, read_at := none }] 50
    { id := 3, user := 4, is_read := true, read_at := some 50 }
  exact ⟨h.1, h.2.1, h.2.2 (by decide) (by decide)⟩

/- ## C1 -/

/-- C1: the claim that a caretaker's Medication and HealthRecord
querysets contain only rows assigned to them is false: the Medication
and HealthRecord `get_queryset` overrides have no caretaker branch, so
caretaker 1 receives a medication row and a health record whose only
user reference is senior 2. -/
theorem c1_scoping_counterexample :
    medication_get_queryset { id := 1, user_type := UserType.caretaker }
      [{ id := 10, senior := 2, is_active := true }] =
      [{ id := 10, senior := 2, is_active := true }] ∧
    health_record_get_queryset { id := 1, user_type := UserType.caretaker }
      [{ id := 11, senior := 2 }] = [{ id := 11, senior := 2 }] ∧
    (2 : Nat) ≠ 1 := by
  refine ⟨rfl, rfl, by decide⟩

/-- C1 (amended): membership characterization of the four scoped
querysets.  Admin roles see all rows of all four resources; a senior
sees exactly their own rows in each; a caretaker is restricted to
assigned rows only for Appointment — for Medication and HealthRecord
(and VolunteerTask) a caretaker sees all rows; a volunteer is
restricted only for VolunteerTask. -/
theorem c1_scoping_amended (u : UserRow) (a : Appointment) (m : Medication)
    (t : VolunteerTask) (r : HealthRecord)
    (apps : List Appointment) (meds : List Medication)
    (tasks : List VolunteerTask) (recs : List HealthRecord) :
    (a ∈ appointment_get_queryset u apps ↔ a ∈ apps ∧
      (u.user_type = UserType.senior → a.senior = u.id) ∧
      (u.user_type = UserType.caretaker → a.caretaker = some u.id)) ∧
    (m ∈ medication_get_queryset u meds ↔ m ∈ meds ∧
      (u.user_type = UserType.senior → m.senior = u.id)) ∧
    (t ∈ volunteer_task_get_queryset u tasks ↔ t ∈ tasks ∧
      (u.user_type = UserType.volunteer → t.volunteer = u.id) ∧
      (u.user_type = UserType.senior → t.senior = u.id)) ∧
    (r ∈ health_record_get_queryset u recs ↔ r ∈ recs ∧
      (u.user_type = UserType.senior → r.senior = u.id)) := by
  cases hu : u.user_type <;>
    simp [appointment_get_queryset, medication_get_queryset,
      volunteer_task_get_queryset, health_record_get_queryset, hu,
      List.mem_filter, and_assoc]

/-- C1 witness: senior 2 sees their own appointment but not senior 3's;
caretaker 1 sees the appointment attached to them; volunteer 5 sees
their assigned task; an admin sees every medication row. -/
theorem c1_scoping_amended_witness :
    ({ id := 20, senior := 2, caretaker := some 1,
       status := AppointmentStatus.scheduled } ∈
      appointment_get_queryset { id := 2, user_type := UserType.senior }
        [{ id := 20, senior := 2, caretaker := some 1,
           status := AppointmentStatus.scheduled },
         { id := 21, senior := 3, caretaker := none,
           status := AppointmentStatus.scheduled }]) ∧
    ¬ ({ id := 21, senior := 3, caretaker := none,
         status := AppointmentStatus.scheduled } ∈
      appointment_get_queryset { id := 2, user_type := UserType.senior }
        [{ id := 20, senior := 2, caretaker := some 1,
           status := AppointmentStatus.scheduled },
         { id := 21, senior := 3, caretaker := none,
           status := AppointmentStatus.scheduled }]) ∧
    ({ id := 30, senior := 2, volunteer := 5,
       status := TaskStatus.assigned, actual_start_time := none,
       actual_end_time := none, hours_logged := 0,
       completion_notes := "" } ∈
      volunteer_task_get_queryset { id := 5, user_type := UserType.volunteer }
        [{ id := 30, senior := 2, volunteer := 5,
           status := TaskStatus.assigned, actual_start_time := none,
           actual_end_time := none, hours_logged := 0,
           completion_notes := "" }]) ∧
    ({ id := 10, senior := 2, is_active := true } ∈
      medication_get_queryset { id := 9, user_type := UserType.senior_admin }
        [{ id := 10, senior := 2, is_active := true }]) := by
  refine ⟨?_, ?_, ?_, ?_⟩
  · exact (c1_scoping_amended { id := 2, user_type := UserType.senior }
      { id := 20, senior := 2, caretaker := some 1,
        status := AppointmentStatus.scheduled }
      { id := 10, senior := 2, is_active := true }
      { id := 30, senior := 2, volunteer := 5,
        status := TaskStatus.assigned, actual_start_time := none,
        actual_end_time := none, hours_logged := 0,
        completion_notes := "" }
      { id := 11, senior := 2 }
      [{ id := 20, senior := 2, caretaker := some 1,
         status := AppointmentStatus.scheduled },
       { id := 21, senior := 3, caretaker := none,
         status := AppointmentStatus.scheduled }]
      [] [] []).1.mpr ⟨by simp, by decide, by decide⟩
  · intro hmem
    have h := (c1_scoping_amended { id := 2, user_type := UserType.senior }
      { id := 21, senior := 3, caretaker := none,
        status := AppointmentStatus.scheduled }
      { id := 10, senior := 2, is_active := true }
      { id := 30, senior := 2, volunteer := 5,
        status := TaskStatus.assigned, actual_start_time := none,
        actual_end_time := none, hours_logged := 0,
        completion_notes := "" }
      { id := 11, senior := 2 }
      [{ id := 20, senior := 2, caretaker := some 1,
         status := AppointmentStatus.scheduled },
       { id := 21, senior := 3, caretaker := none,
         status := AppointmentStatus.scheduled }]
      [] [] []).1.mp hmem
    exact absurd (h.2.1 rfl) (by decide)
  · exact (c1_scoping_amended { id := 5, user_type := UserType.volunteer }
      { id := 20, senior := 2, caretaker := some 1,
        status := AppointmentStatus.scheduled }
      { id := 10, senior := 2, is_active := true }
      { id := 30, senior := 2, volunteer := 5,
        status := TaskStatus.assigned, actual_start_time := none,
        actual_end_time := none, hours_logged := 0,
        completion_notes := "" }
      { id := 11, senior := 2 } [] []
      [{ id := 30, senior := 2, volunteer := 5,
         status := TaskStatus.assigned, actual_start_time := none,
         actual_end_time := none, hours_logged := 0,
         completion_notes := "" }]
      []).2.2.1.mpr ⟨by simp, by decide, by decide⟩
  · exact (c1_scoping_amended { id := 9, user_type := UserType.senior_admin }
      { id := 20, senior := 2, caretaker := some 1,
        status := AppointmentStatus.scheduled }
      { id := 10, senior := 2, is_active := true }
      { id := 30, senior := 2, volunteer := 5,
        status := TaskStatus.assigned, actual_start_time := none,
        actual_end_time := none, hours_logged := 0,
        completion_notes := "" }
      { id := 11, senior := 2 } []
      [{ id := 10, senior := 2, is_active := true }] []
      []).2.1.mpr ⟨by simp, by decide⟩
